import Mathlib

/-!
Verification of the swapchain-lifecycle and frame-scheduling core of the
PrismaAndroid Vulkan renderer (`app/src/main/cpp/RendererVulkan.cpp`).

The embedding is a shallow model of the renderer's state machine.  Vulkan
handles are modelled as naturals (`0` plays `VK_NULL_HANDLE`); every
`vkCreate*` / `vkDestroy*` call on a swapchain-lifecycle object is recorded
in an event trace so that create/destroy balance can be stated.  Scene
collaborators (`Scene`, `GameObject`, `MeshRenderer`, `SkyboxRenderer`),
whose sources live outside the renderer core, are modelled from the spec's
collaborator contracts.  Matrix values are kept symbolic: the model tracks
which matrix-producing operation (`glm::perspective`, `glm::lookAt`,
`getTransformMatrix`, the Y negation) produced each uniform payload entry,
not the floating-point entries themselves.
-/

set_option autoImplicit false

namespace PrismaVulkan

/-- Vulkan object handles; `0` models `VK_NULL_HANDLE`. -/
abbrev Handle := Nat

/-- `VkExtent2D`. -/
structure Extent2D where
  width : Nat
  height : Nat
deriving DecidableEq, Repr

/-- `VK_SURFACE_TRANSFORM_IDENTITY_BIT_KHR` (vulkan_core.h). -/
def TRANSFORM_IDENTITY_BIT : Nat := 1

/-- `VK_SURFACE_TRANSFORM_ROTATE_90_BIT_KHR` (vulkan_core.h). -/
def TRANSFORM_ROTATE_90_BIT : Nat := 2

/-- `VK_SURFACE_TRANSFORM_ROTATE_180_BIT_KHR` (vulkan_core.h). -/
def TRANSFORM_ROTATE_180_BIT : Nat := 4

/-- `VK_SURFACE_TRANSFORM_ROTATE_270_BIT_KHR` (vulkan_core.h). -/
def TRANSFORM_ROTATE_270_BIT : Nat := 8

/-- The aspect-ratio computation of `RendererVulkan::updateUniformBuffer`
(RendererVulkan.cpp:1391-1398): rotated 90/270 pre-transforms swap
width and height. -/
def computeAspect (currentTransform : Nat) (extent : Extent2D) : ℚ :=
  if currentTransform &&& TRANSFORM_ROTATE_90_BIT ≠ 0 ∨
     currentTransform &&& TRANSFORM_ROTATE_270_BIT ≠ 0 then
    (extent.height : ℚ) / (extent.width : ℚ)
  else
    (extent.width : ℚ) / (extent.height : ℚ)

/-- One queue family as the renderer observes it: the
`VK_QUEUE_GRAPHICS_BIT` of its `queueFlags` and the result of
`vkGetPhysicalDeviceSurfaceSupportKHR` at its index. -/
structure QueueFamily where
  graphicsBit : Bool
  presentSupport : Bool
deriving DecidableEq, Repr

/-- Loop body of the queue-family scan in `RendererVulkan::init`
(RendererVulkan.cpp:170-176): each family with the graphics bit
overwrites `graphicsFamily`, each family with present support overwrites
`presentFamily`, and the loop breaks once both are set. -/
def selectQueueFamiliesInitGo : List QueueFamily → Nat → Int → Int → Int × Int
  | [], _, g, p => (g, p)
  | f :: rest, i, g, p =>
    let g' := if f.graphicsBit then (i : Int) else g
    let p' := if f.presentSupport then (i : Int) else p
    if g' ≠ -1 ∧ p' ≠ -1 then (g', p')
    else selectQueueFamiliesInitGo rest (i + 1) g' p'

/-- Queue-family selection on the init path (RendererVulkan.cpp:168-176). -/
def selectQueueFamiliesInit (queueFamilies : List QueueFamily) : Int × Int :=
  selectQueueFamiliesInitGo queueFamilies 0 (-1) (-1)

/-- Loop body of the queue-family scan in
`RendererVulkan::recreateSwapChain` (RendererVulkan.cpp:1784-1790), a
separate transliteration of the (textually identical) loop there. -/
def selectQueueFamiliesRecreateGo : List QueueFamily → Nat → Int → Int → Int × Int
  | [], _, g, p => (g, p)
  | f :: rest, i, g, p =>
    let g' := if f.graphicsBit then (i : Int) else g
    let p' := if f.presentSupport then (i : Int) else p
    if g' ≠ -1 ∧ p' ≠ -1 then (g', p')
    else selectQueueFamiliesRecreateGo rest (i + 1) g' p'

/-- Queue-family selection on the rebuild path
(RendererVulkan.cpp:1782-1790). -/
def selectQueueFamiliesRecreate (queueFamilies : List QueueFamily) : Int × Int :=
  selectQueueFamiliesRecreateGo queueFamilies 0 (-1) (-1)

/-- Modelled from the spec: "select the first graphics-capable family and
the first family reporting present support" — the selection the spec
claims, used only to compare against the code's selection. -/
def specFirstSelect (queueFamilies : List QueueFamily) : Int × Int :=
  (match queueFamilies.findIdx? (·.graphicsBit) with
    | some n => (n : Int)
    | none => -1,
   match queueFamilies.findIdx? (·.presentSupport) with
    | some n => (n : Int)
    | none => -1)

/-- Amended description of the code's scan: walk the indexed family list,
let the most recent qualifying index win for each capability, and stop at
the first index at which both capabilities have been seen. -/
def lastWinsScan : List (Nat × QueueFamily) → Int × Int → Int × Int
  | [], acc => acc
  | (n, f) :: rest, (g, p) =>
    let g' := if f.graphicsBit then (n : Int) else g
    let p' := if f.presentSupport then (n : Int) else p
    if g' ≠ -1 ∧ p' ≠ -1 then (g', p')
    else lastWinsScan rest (g', p')

/-- The amended (last-qualifying-wins, stop when both found) selection. -/
def lastWinsSelect (queueFamilies : List QueueFamily) : Int × Int :=
  lastWinsScan queueFamilies.enum (-1, -1)

/-! ### Handle traces

Every tracked `vkCreate*` / `vkDestroy*` call becomes an event; liveness of
a handle is "created and not destroyed". -/

/-- Kinds of swapchain-lifecycle objects whose create/destroy calls the
model tracks. -/
inductive ResKind where
  | swapchain
  | renderPass
  | imageView
  | framebuffer
  | pipeline
  | pipelineLayout
deriving DecidableEq, Repr

/-- A create or destroy call on a tracked object. -/
inductive Event where
  | create (kind : ResKind) (h : Handle)
  | destroy (kind : ResKind) (h : Handle)
deriving DecidableEq, Repr

/-- Handles of a kind created somewhere in a trace. -/
def createdHandles (kind : ResKind) (trace : List Event) : List Handle :=
  trace.filterMap fun e =>
    match e with
    | .create k h => if k = kind then some h else none
    | .destroy _ _ => none

/-- Handles of a kind destroyed somewhere in a trace. -/
def destroyedHandles (kind : ResKind) (trace : List Event) : List Handle :=
  trace.filterMap fun e =>
    match e with
    | .destroy k h => if k = kind then some h else none
    | .create _ _ => none

/-- Handles of a kind that are live after a trace: created, not destroyed. -/
def liveHandles (kind : ResKind) (trace : List Event) : List Handle :=
  (createdHandles kind trace).filter (fun h => h ∉ destroyedHandles kind trace)

/-- Number of live handles of a kind. -/
def liveCount (kind : ResKind) (trace : List Event) : Nat :=
  (liveHandles kind trace).length

/-! ### Pipeline construction records -/

/-- `VkDynamicState` values relevant to this renderer. -/
inductive DynState where
  | viewport
  | scissor
deriving DecidableEq, Repr

/-- Which construction site built a pipeline. -/
inductive PipelineTag where
  | mainInit      -- createGraphicsPipeline (init path)
  | mainRebuild   -- rebuilt inline in recreateSwapChain
  | clearColor    -- createClearColorPipeline
  | skybox        -- createSkyboxPipeline
deriving DecidableEq, Repr

/-- What a graphics-pipeline creation declared: its dynamic-state list
(empty when `pDynamicState` is absent) and the extent baked into its
fixed viewport/scissor at creation time. -/
structure PipelineRecord where
  tag : PipelineTag
  handle : Handle
  dynamicStates : List DynState
  bakedExtent : Extent2D
deriving DecidableEq, Repr

/-- The fields of `VkSwapchainCreateInfoKHR` the claims talk about. -/
structure SwapchainCreateInfoRec where
  minImageCount : Nat
  imageExtent : Extent2D
  preTransform : Nat
  sharingModeConcurrent : Bool
  oldSwapchain : Handle
deriving DecidableEq, Repr

/-! ### Scene collaborators

Modelled from the spec: `Scene`, `GameObject`, `MeshRenderer`,
`SkyboxRenderer`, `Model` and the texture assets live outside the renderer
core source.  Per the spec's collaborator contract a drawable exposes a
capability check (mesh vs skybox component), a mutable transform
(position + Euler rotation), and mesh index counts; a skybox component
carries a cubemap whose image view may or may not be valid. -/

/-- A 3-vector with rational components (stand-in for `glm::vec3`). -/
structure Vec3 where
  x : ℚ
  y : ℚ
  z : ℚ
deriving DecidableEq, Repr

/-- The component attached to a drawable: mesh renderer (with the model's
index count) or skybox renderer (with cubemap validity, i.e. whether
`getCubemap()->getImageView() != VK_NULL_HANDLE`). -/
inductive ComponentKind where
  | meshRenderer (indexCount : Nat)
  | skyboxRenderer (cubemapValid : Bool)
deriving DecidableEq, Repr

/-- Modelled from the spec: a drawable (`GameObject`) with name, transform
and one renderer component. -/
structure GameObject where
  name : String
  position : Vec3
  rotation : Vec3
  comp : ComponentKind
deriving DecidableEq, Repr

/-- `go->getComponent<MeshRenderer>() != nullptr`. -/
def GameObject.hasMeshRenderer (go : GameObject) : Bool :=
  match go.comp with
  | .meshRenderer _ => true
  | .skyboxRenderer _ => false

/-- `go->getComponent<SkyboxRenderer>() != nullptr`. -/
def GameObject.hasSkyboxRenderer (go : GameObject) : Bool :=
  match go.comp with
  | .meshRenderer _ => false
  | .skyboxRenderer _ => true

/-- Whether the skybox component's cubemap has a valid image view. -/
def GameObject.cubemapValid (go : GameObject) : Bool :=
  match go.comp with
  | .meshRenderer _ => false
  | .skyboxRenderer v => v

/-- The index count of a mesh drawable's model (`model->getIndexCount()`),
`0` for a skybox drawable. -/
def GameObject.meshIndexCount (go : GameObject) : Nat :=
  match go.comp with
  | .meshRenderer n => n
  | .skyboxRenderer _ => 0

/-- Loop body of the mesh/skybox partition repeated verbatim at
RendererVulkan.cpp:651-661, 718-728, 786-796, 850-860, 1379-1389 and
1479-1489: mesh drawables push their index, each skybox drawable
overwrites `skyboxIndex` (`SIZE_MAX` is modelled as `none`). -/
def partitionDrawablesGo :
    List GameObject → Nat → List Nat → Option Nat → List Nat × Option Nat
  | [], _, acc, sky => (acc, sky)
  | go :: rest, i, acc, sky =>
    if go.hasMeshRenderer then
      partitionDrawablesGo rest (i + 1) (acc ++ [i]) sky
    else if go.hasSkyboxRenderer then
      partitionDrawablesGo rest (i + 1) acc (some i)
    else
      partitionDrawablesGo rest (i + 1) acc sky

/-- `(meshRendererIndices, skyboxIndex)` as the renderer computes them. -/
def partitionDrawables (gameObjects : List GameObject) : List Nat × Option Nat :=
  partitionDrawablesGo gameObjects 0 [] none

/-! ### Renderer state -/

/-- The swapchain-related fields of `VulkanContext` that the claims are
about. -/
structure VulkanContextState where
  swapChain : Handle
  swapChainImageViews : List Handle
  renderPass : Handle
  swapChainFramebuffers : List Handle
  swapChainExtent : Extent2D
  currentTransform : Nat
  swapChainImageCount : Nat
deriving DecidableEq, Repr

/-- The claim-relevant fields of `RendererVulkan::skyboxData_`. -/
structure SkyboxDataState where
  pipeline : Handle
  pipelineLayout : Handle
  hasTexture : Bool
  uniformBuffersMappedSize : Nat
deriving DecidableEq, Repr

/-- The claim-relevant fields of `RendererVulkan::clearColorData_`. -/
structure ClearColorDataState where
  pipeline : Handle
  pipelineLayout : Handle
deriving DecidableEq, Repr

/-- The claim-relevant fields of `RendererVulkan`. -/
structure RendererState where
  ctx : VulkanContextState
  graphicsPipeline : Handle
  pipelineLayout : Handle
  skyboxData : SkyboxDataState
  clearColorData : ClearColorDataState
  gameObjects : List GameObject
  currentFrame : Nat
deriving DecidableEq, Repr

/-- Renderer state together with the create/destroy trace, the pipeline
construction records, the recorded `VkSwapchainCreateInfoKHR`s and a
fresh-handle supply. -/
structure World where
  st : RendererState
  trace : List Event
  pipelines : List PipelineRecord
  swapchainCreateInfos : List SwapchainCreateInfoRec
  nextHandle : Handle
deriving DecidableEq, Repr

/-- Allocate a fresh handle of a kind, recording the create call. -/
def World.alloc (w : World) (kind : ResKind) : Handle × World :=
  (w.nextHandle,
   { w with trace := w.trace ++ [.create kind w.nextHandle],
            nextHandle := w.nextHandle + 1 })

/-- Allocate `n` fresh handles of a kind (one create call each). -/
def World.allocMany (w : World) (kind : ResKind) : Nat → List Handle × World
  | 0 => ([], w)
  | n + 1 =>
    let (h, w') := w.alloc kind
    let (hs, w'') := w'.allocMany kind n
    (h :: hs, w'')

/-- Record a destroy call. -/
def World.destroyRes (w : World) (kind : ResKind) (h : Handle) : World :=
  { w with trace := w.trace ++ [.destroy kind h] }

/-! ### Environments

Inputs the renderer reads from the platform: surface capabilities, the
native window's pixel dimensions, queue-family properties, the image count
the driver hands back, the success of swapchain creation, and whether the
asset loaders deliver shader bytecode / a cubemap. -/

/-- `VkSurfaceCapabilitiesKHR` fields the renderer reads. -/
structure SurfaceCapabilities where
  currentExtent : Extent2D
  currentTransform : Nat
  minImageCount : Nat
deriving DecidableEq, Repr

/-- Everything the device/surface side answers during one build or
rebuild. -/
structure SurfaceEnv where
  caps : SurfaceCapabilities
  windowWidth : Nat
  windowHeight : Nat
  queueFamilies : List QueueFamily
  createSwapchainSucceeds : Bool
  imageCount : Nat
deriving DecidableEq, Repr

/-- What the asset loaders deliver: whether each shader pair loads
non-empty and whether `CubemapTextureAsset::loadFromAssets` returns a
cubemap (with valid image view). -/
structure AssetEnv where
  mainShadersOk : Bool
  clearShadersOk : Bool
  skyboxShadersOk : Bool
  cubemapLoads : Bool
deriving DecidableEq, Repr

/-! ### Scene construction (`RendererVulkan::createScene`) -/

/-- `MAX_FRAMES_IN_FLIGHT` (RendererVulkan.h). -/
def MAX_FRAMES_IN_FLIGHT : Nat := 2

/-- The "Cube" drawable built in `createScene`
(RendererVulkan.cpp:381-435): position `(0, 0, -2)`, a `MeshRenderer`
whose model has 36 indices. -/
def cubeObject : GameObject :=
  { name := "Cube", position := ⟨0, 0, -2⟩, rotation := ⟨0, 0, 0⟩,
    comp := .meshRenderer 36 }

/-- The "Skybox" drawable built in `createScene`
(RendererVulkan.cpp:437-463), added only when the cubemap loads. -/
def skyboxObject : GameObject :=
  { name := "Skybox", position := ⟨0, 0, 0⟩, rotation := ⟨0, 0, 0⟩,
    comp := .skyboxRenderer true }

/-- `RendererVulkan::createScene` (RendererVulkan.cpp:356-464): always the
cube; the skybox drawable only if `CubemapTextureAsset::loadFromAssets`
returned a cubemap. -/
def createScene (assets : AssetEnv) : List GameObject :=
  [cubeObject] ++ (if assets.cubemapLoads then [skyboxObject] else [])

/-! ### Pipeline builders -/

/-- `RendererVulkan::createGraphicsPipeline` (RendererVulkan.cpp:466-633),
the init-path main pipeline: early return when a shader file fails to
load; otherwise create descriptor-set layout, pipeline layout and the
pipeline.  Its `VkGraphicsPipelineCreateInfo` sets no `pDynamicState`; the
viewport and scissor are baked from the extent current at creation. -/
def createGraphicsPipelineInit (assets : AssetEnv) (w : World) : World :=
  if !assets.mainShadersOk then w
  else
    let (pl, w) := w.alloc .pipelineLayout
    let w := { w with st.pipelineLayout := pl }
    let (gp, w) := w.alloc .pipeline
    { w with st.graphicsPipeline := gp,
             pipelines := w.pipelines ++
               [{ tag := .mainInit, handle := gp, dynamicStates := [],
                  bakedExtent := w.st.ctx.swapChainExtent }] }

/-- `RendererVulkan::createClearColorPipeline`
(RendererVulkan.cpp:924-1092): early return when the clearcolor shaders
fail to load; otherwise create its layout, the pipeline (no
`pDynamicState`; viewport/scissor baked at creation) and the full-screen
quad's vertex buffer (untracked). -/
def createClearColorPipeline (assets : AssetEnv) (w : World) : World :=
  if !assets.clearShadersOk then w
  else
    let (pl, w) := w.alloc .pipelineLayout
    let w := { w with st.clearColorData.pipelineLayout := pl }
    let (p, w) := w.alloc .pipeline
    { w with st.clearColorData.pipeline := p,
             pipelines := w.pipelines ++
               [{ tag := .clearColor, handle := p, dynamicStates := [],
                  bakedExtent := w.st.ctx.swapChainExtent }] }

/-- `RendererVulkan::createSkyboxPipeline` (RendererVulkan.cpp:1094-1283):
look for the first drawable with a `SkyboxRenderer`; recompute
`skyboxData_.hasTexture`; return early when there is no skybox drawable,
when it has no valid texture, or when its shaders fail to load (clearing
`hasTexture` in the last case); otherwise create descriptor-set layout
(untracked), pipeline layout and the pipeline (no `pDynamicState`;
viewport/scissor baked at creation; front-face culling). -/
def createSkyboxPipeline (assets : AssetEnv) (w : World) : World :=
  let skyboxRenderer := w.st.gameObjects.find? (·.hasSkyboxRenderer)
  let hasTexture :=
    match skyboxRenderer with
    | some go => go.cubemapValid
    | none => false
  let w := { w with st.skyboxData.hasTexture := hasTexture }
  match skyboxRenderer with
  | none => w
  | some _ =>
    if !hasTexture then w
    else if !assets.skyboxShadersOk then
      { w with st.skyboxData.hasTexture := false }
    else
      let (pl, w) := w.alloc .pipelineLayout
      let w := { w with st.skyboxData.pipelineLayout := pl }
      let (p, w) := w.alloc .pipeline
      { w with st.skyboxData.pipeline := p,
               pipelines := w.pipelines ++
                 [{ tag := .skybox, handle := p, dynamicStates := [],
                    bakedExtent := w.st.ctx.swapChainExtent }] }

/-- `RendererVulkan::createSkyboxDescriptorSets`
(RendererVulkan.cpp:1285-1355), restricted to the state the claims read:
when a skybox drawable exists and `hasTexture` is set, the skybox uniform
buffers are created and mapped (`uniformBuffersMapped` gets
`MAX_FRAMES_IN_FLIGHT` entries); otherwise nothing happens. -/
def createSkyboxDescriptorSets (w : World) : World :=
  match w.st.gameObjects.find? (·.hasSkyboxRenderer) with
  | none => w
  | some _ =>
    if w.st.skyboxData.hasTexture then
      { w with st.skyboxData.uniformBuffersMappedSize := MAX_FRAMES_IN_FLIGHT }
    else w

/-! ### init (`RendererVulkan::init`, RendererVulkan.cpp:123-354) -/

/-- The renderer state before `init`: null handles, empty vectors,
`currentFrame = 0` (RendererVulkan.h field initializers). -/
def emptyRendererState : RendererState :=
  { ctx := { swapChain := 0, swapChainImageViews := [], renderPass := 0,
             swapChainFramebuffers := [], swapChainExtent := ⟨0, 0⟩,
             currentTransform := 0, swapChainImageCount := 0 },
    graphicsPipeline := 0, pipelineLayout := 0,
    skyboxData := { pipeline := 0, pipelineLayout := 0, hasTexture := false,
                    uniformBuffersMappedSize := 0 },
    clearColorData := { pipeline := 0, pipelineLayout := 0 },
    gameObjects := [], currentFrame := 0 }

/-- The world before `init`: empty trace; handle supply starts at 1 so
that 0 stays `VK_NULL_HANDLE`. -/
def emptyWorld : World :=
  { st := emptyRendererState, trace := [], pipelines := [],
    swapchainCreateInfos := [], nextHandle := 1 }

/-- `RendererVulkan::init` restricted to the swapchain-lifecycle steps the
claims talk about (steps 5-8 plus scene and pipeline creation,
RendererVulkan.cpp:206-354).  Note: the init path applies no
window-dimension correction and no zero-extent check, and checks no
creation results. -/
def initRenderer (surface : SurfaceEnv) (assets : AssetEnv) : World :=
  let w := emptyWorld
  -- step 4: queue family selection (RendererVulkan.cpp:163-176)
  let gp := selectQueueFamiliesInit surface.queueFamilies
  -- step 5: swapchain (RendererVulkan.cpp:206-242)
  let w := { w with st.ctx.swapChainExtent := surface.caps.currentExtent,
                    st.ctx.currentTransform := surface.caps.currentTransform }
  let info : SwapchainCreateInfoRec :=
    { minImageCount := surface.caps.minImageCount + 1,
      imageExtent := surface.caps.currentExtent,
      preTransform := surface.caps.currentTransform,
      sharingModeConcurrent := gp.1 != gp.2,
      oldSwapchain := 0 }
  let w := { w with swapchainCreateInfos := w.swapchainCreateInfos ++ [info] }
  let (sc, w) := w.alloc .swapchain
  let w := { w with st.ctx.swapChain := sc,
                    st.ctx.swapChainImageCount := surface.imageCount }
  -- step 6: image views (RendererVulkan.cpp:244-258)
  let (views, w) := w.allocMany .imageView surface.imageCount
  let w := { w with st.ctx.swapChainImageViews := views }
  -- step 7: render pass (RendererVulkan.cpp:260-297)
  let (rp, w) := w.alloc .renderPass
  let w := { w with st.ctx.renderPass := rp }
  -- step 8: framebuffers (RendererVulkan.cpp:299-312)
  let (fbs, w) := w.allocMany .framebuffer surface.imageCount
  let w := { w with st.ctx.swapChainFramebuffers := fbs }
  -- steps 9-10 (command pool, sync objects) are untracked
  let w := { w with st.gameObjects := createScene assets }
  let w := createGraphicsPipelineInit assets w
  let w := createClearColorPipeline assets w
  let w := createSkyboxPipeline assets w
  -- buffer/descriptor creation; only the skybox mapped size is tracked
  let w := createSkyboxDescriptorSets w
  w

/-! ### Rebuild (`RendererVulkan::recreateSwapChain`,
RendererVulkan.cpp:1726-2086).  `cleanupSwapChain`
(RendererVulkan.cpp:1654-1711) is transliterated below as well; note that
nothing in the source ever calls it. -/

/-- The extent correction at RendererVulkan.cpp:1735-1746: when the
surface capabilities disagree with the native window's pixel dimensions,
the window's dimensions win. -/
def correctedExtent (surface : SurfaceEnv) : Extent2D :=
  if surface.caps.currentExtent.width ≠ surface.windowWidth ∨
     surface.caps.currentExtent.height ≠ surface.windowHeight then
    ⟨surface.windowWidth, surface.windowHeight⟩
  else
    surface.caps.currentExtent

/-- RendererVulkan.cpp:1748-1750: `swapChainExtent` and `currentTransform`
are overwritten with the (corrected) queried values — this happens before
the zero-extent check. -/
def recreateGeometry (surface : SurfaceEnv) (w : World) : World :=
  { w with st.ctx.swapChainExtent := correctedExtent surface,
           st.ctx.currentTransform := surface.caps.currentTransform }

/-- The `VkSwapchainCreateInfoKHR` the rebuild fills in
(RendererVulkan.cpp:1766-1809): image extent is the corrected extent,
`oldSwapchain` is the previous swapchain handle, sharing mode depends on
the re-enumerated queue families. -/
def swapchainInfoFor (surface : SurfaceEnv) (w : World) : SwapchainCreateInfoRec :=
  { minImageCount := surface.caps.minImageCount + 1,
    imageExtent := correctedExtent surface,
    preTransform := surface.caps.currentTransform,
    sharingModeConcurrent :=
      (selectQueueFamiliesRecreate surface.queueFamilies).1 !=
        (selectQueueFamiliesRecreate surface.queueFamilies).2,
    oldSwapchain := w.st.ctx.swapChain }

/-- Record the filled-in creation info. -/
def recreateRecordInfo (surface : SurfaceEnv) (w : World) : World :=
  { w with swapchainCreateInfos :=
             w.swapchainCreateInfos ++ [swapchainInfoFor surface w] }

/-- RendererVulkan.cpp:1812-1825: `vkCreateSwapchainKHR` succeeded — the
new handle is installed and the old swapchain (saved at cpp:1759) is
destroyed right afterwards, if non-null. -/
def recreateCreateSwapchain (w : World) : World :=
  let oldSwapChain := w.st.ctx.swapChain
  let p := w.alloc .swapchain
  let w1 : World := { p.2 with st.ctx.swapChain := p.1 }
  if oldSwapChain ≠ 0 then w1.destroyRes .swapchain oldSwapChain else w1

/-- RendererVulkan.cpp:1826-2086: everything the rebuild does after the
new swapchain exists: image views, render pass, the main pipeline (with
dynamic viewport/scissor, cpp:1983-1997), framebuffers, then
`createClearColorPipeline` and `createSkyboxPipeline`.  None of the
superseded handles is destroyed here. -/
def recreateSwapChainTail (surface : SurfaceEnv) (assets : AssetEnv)
    (w : World) : World :=
  let pv := w.allocMany .imageView surface.imageCount
  let w1 : World := { pv.2 with st.ctx.swapChainImageViews := pv.1,
                                st.ctx.swapChainImageCount := surface.imageCount }
  let pr := w1.alloc .renderPass
  let w2 : World := { pr.2 with st.ctx.renderPass := pr.1 }
  -- RendererVulkan.cpp:1887-1895 — main pipeline rebuild, shader check
  if !assets.mainShadersOk then w2
  else
    let pl := w2.alloc .pipelineLayout
    let w3 : World := { pl.2 with st.pipelineLayout := pl.1 }
    let mp := w3.alloc .pipeline
    let rec1 : PipelineRecord :=
      { tag := .mainRebuild, handle := mp.1,
        dynamicStates := [.viewport, .scissor],
        bakedExtent := w3.st.ctx.swapChainExtent }
    let w4 : World := { mp.2 with st.graphicsPipeline := mp.1,
                                  pipelines := mp.2.pipelines ++ [rec1] }
    let pf := w4.allocMany .framebuffer surface.imageCount
    let w5 : World := { pf.2 with st.ctx.swapChainFramebuffers := pf.1 }
    createSkyboxPipeline assets (createClearColorPipeline assets w5)

/-- `RendererVulkan::recreateSwapChain` (RendererVulkan.cpp:1726-2086),
assembled from the stages above in source order: overwrite the geometry;
early return on zero extent; fill in and record the creation info with
the previous swapchain as `oldSwapchain`; early return (old swapchain
kept, nothing created or destroyed) on creation failure; install the new
chain and destroy the old one; then rebuild everything downstream.  No
previously created image view, render pass, framebuffer, pipeline or
layout is destroyed anywhere on this path. -/
def recreateSwapChain (surface : SurfaceEnv) (assets : AssetEnv)
    (w : World) : World :=
  let w := recreateGeometry surface w
  -- RendererVulkan.cpp:1752-1755 — minimized-window early return
  if (correctedExtent surface).width = 0 ∨
     (correctedExtent surface).height = 0 then w
  else
    let w := recreateRecordInfo surface w
    -- RendererVulkan.cpp:1812-1821 — vkCreateSwapchainKHR with result check
    if !surface.createSwapchainSucceeds then w
    else recreateSwapChainTail surface assets (recreateCreateSwapchain w)

/-- `RendererVulkan::cleanupSwapChain` (RendererVulkan.cpp:1654-1711):
reverse-order destruction of framebuffers, the three pipelines, the three
layouts, render pass, image views, and the swapchain.  No call site
exists anywhere in the repository. -/
def cleanupSwapChain (w0 : World) : World :=
  let w1 := w0.st.ctx.swapChainFramebuffers.foldl
    (fun (acc : World) fb => acc.destroyRes .framebuffer fb) w0
  let w2 : World := { w1 with st.ctx.swapChainFramebuffers := [] }
  let w3 := w2.destroyRes .pipeline w2.st.graphicsPipeline
  let w4 : World := { w3 with st.graphicsPipeline := 0 }
  let w5 : World :=
    if w4.st.clearColorData.pipeline ≠ 0 then
      let a := w4.destroyRes .pipeline w4.st.clearColorData.pipeline
      { a with st.clearColorData.pipeline := 0 }
    else w4
  let w6 : World :=
    if w5.st.skyboxData.pipeline ≠ 0 then
      let a := w5.destroyRes .pipeline w5.st.skyboxData.pipeline
      { a with st.skyboxData.pipeline := 0 }
    else w5
  let w7 := w6.destroyRes .pipelineLayout w6.st.pipelineLayout
  let w8 : World := { w7 with st.pipelineLayout := 0 }
  let w9 : World :=
    if w8.st.clearColorData.pipelineLayout ≠ 0 then
      let a := w8.destroyRes .pipelineLayout w8.st.clearColorData.pipelineLayout
      { a with st.clearColorData.pipelineLayout := 0 }
    else w8
  let w10 : World :=
    if w9.st.skyboxData.pipelineLayout ≠ 0 then
      let a := w9.destroyRes .pipelineLayout w9.st.skyboxData.pipelineLayout
      { a with st.skyboxData.pipelineLayout := 0 }
    else w9
  let w11 := w10.destroyRes .renderPass w10.st.ctx.renderPass
  let w12 : World := { w11 with st.ctx.renderPass := 0 }
  let w13 := w12.st.ctx.swapChainImageViews.foldl
    (fun (acc : World) v => acc.destroyRes .imageView v) w12
  let w14 : World := { w13 with st.ctx.swapChainImageViews := [] }
  let w15 := w14.destroyRes .swapchain w14.st.ctx.swapChain
  { w15 with st.ctx.swapChain := 0 }

/-! ### Uniform update (`RendererVulkan::updateUniformBuffer`,
RendererVulkan.cpp:1370-1441)

Matrix values are symbolic: a `Mat4` records which operation produced it,
so that "the payload is the model matrix from the drawable's transform,
the shared view matrix, the Y-negated projection" is a statement about
constructors. -/

/-- Symbolic 4x4 matrix: the four matrix-producing operations the uniform
update uses. -/
inductive Mat4 where
  | perspective (fovyDeg aspect zNear zFar : ℚ)
  | lookAt (eye center up : Vec3)
  | negY (m : Mat4)
  | transformMatrix (position rotation : Vec3)
deriving DecidableEq, Repr

/-- The shared view matrix (RendererVulkan.cpp:1409-1412): camera at
`(0, 0, 3)` looking at the origin with up `(0, 1, 0)`. -/
def viewMatrix : Mat4 := .lookAt ⟨0, 0, 3⟩ ⟨0, 0, 0⟩ ⟨0, 1, 0⟩

/-- The shared projection matrix (RendererVulkan.cpp:1401-1406):
`glm::perspective(radians(45), aspect, 0.1, 10)` with its Y axis negated
afterwards (`proj[1][1] *= -1`). -/
def projMatrix (currentTransform : Nat) (extent : Extent2D) : Mat4 :=
  .negY (.perspective 45 (computeAspect currentTransform extent) (1/10) 10)

/-- The cube-rotation animation (RendererVulkan.cpp:1420-1423): drawables
named "Cube" get `rotation.x = rotation.y = time * 30`. -/
def animateCube (time : ℚ) (go : GameObject) : GameObject :=
  if go.name = "Cube" then
    { go with rotation := ⟨time * 30, time * 30, go.rotation.z⟩ }
  else go

/-- One `memcpy` into a mesh object's mapped uniform slice: slot and the
three matrices of `UniformBufferObject` (RendererVulkan.cpp:18-22). -/
structure UboWrite where
  slot : Nat
  model : Mat4
  view : Mat4
  proj : Mat4
deriving DecidableEq, Repr

/-- The `memcpy` into the skybox's mapped uniform slice:
`SkyboxUniformBufferObject` has only view and proj
(RendererVulkan.cpp:25-28). -/
structure SkyboxUboWrite where
  slot : Nat
  view : Mat4
  proj : Mat4
deriving DecidableEq, Repr

/-- The loop over `meshRendererIndices` (RendererVulkan.cpp:1415-1431):
animate the cube, rebuild the UBO from the (now current) transform and
the shared view/proj, and memcpy it into slot `currentImage`.  The
mutated drawable list is threaded through. -/
def updateMeshUbos (time : ℚ) (view proj : Mat4) (currentImage : Nat) :
    List Nat → List GameObject → List GameObject × List UboWrite
  | [], gos => (gos, [])
  | i :: rest, gos =>
    -- gameObjects[i] is read unconditionally in the source loop
    let go := gos.getD i cubeObject
    let go' := animateCube time go
    let gos' := gos.set i go'
    let write : UboWrite :=
      { slot := currentImage,
        model := .transformMatrix go'.position go'.rotation,
        view := view, proj := proj }
    let p := updateMeshUbos time view proj currentImage rest gos'
    (p.1, write :: p.2)

/-- Result of one `updateUniformBuffer` call: the drawable list after the
animation mutation, the mesh UBO writes (in `renderObjects` order) and
the optional skybox UBO write. -/
structure UniformUpdateResult where
  gameObjects : List GameObject
  writes : List UboWrite
  skyboxWrite : Option SkyboxUboWrite
deriving DecidableEq, Repr

/-- `RendererVulkan::updateUniformBuffer` (RendererVulkan.cpp:1370-1441):
partition drawables, compute aspect ratio from the current transform and
extent, build shared proj (Y-negated) and view, update every mesh
object's UBO for slot `currentImage`, and, when a skybox drawable exists
with a valid texture and mapped buffers, write its view/proj-only UBO. -/
def updateUniformBuffer (time : ℚ) (st : RendererState) (currentImage : Nat) :
    UniformUpdateResult :=
  let part := partitionDrawables st.gameObjects
  let proj := projMatrix st.ctx.currentTransform st.ctx.swapChainExtent
  let view := viewMatrix
  let (gos, writes) :=
    updateMeshUbos time view proj currentImage part.1 st.gameObjects
  let skyboxWrite :=
    if part.2.isSome ∧ st.skyboxData.hasTexture = true ∧
       st.skyboxData.uniformBuffersMappedSize ≠ 0 then
      some { slot := currentImage, view := view, proj := proj }
    else none
  { gameObjects := gos, writes := writes, skyboxWrite := skyboxWrite }

/-! ### Command recording (`RendererVulkan::recordCommandBuffer`,
RendererVulkan.cpp:1442-1543) -/

/-- The recorded commands the claims talk about. -/
inductive Cmd where
  | beginRenderPass (framebuffer : Handle) (extent : Extent2D)
  | setViewport (extent : Extent2D)
  | setScissor (extent : Extent2D)
  | bindPipeline (p : Handle)
  | bindVertexBuffer
  | bindIndexBuffer
  | bindDescriptorSets
  | draw (vertexCount instanceCount : Nat)
  | drawIndexed (indexCount instanceCount : Nat)
  | endRenderPass
deriving DecidableEq, Repr

/-- Modelled from the spec: `SkyboxRenderer::getSkyboxIndices().size()`,
the 36 indices of the skybox cube (SkyboxRenderer.cpp is outside the
core source). -/
def skyboxIndexCount : Nat := 36

/-- The background block of `recordCommandBuffer`
(RendererVulkan.cpp:1491-1519): the skybox draw when the skybox pipeline
exists and has a texture; otherwise, when a skybox drawable exists and
the clear-color pipeline exists, the full-screen-quad draw; otherwise
nothing. -/
def backgroundCmds (st : RendererState) : List Cmd :=
  let part := partitionDrawables st.gameObjects
  if st.skyboxData.pipeline ≠ 0 ∧ st.skyboxData.hasTexture = true then
    [.bindPipeline st.skyboxData.pipeline, .bindVertexBuffer,
     .bindIndexBuffer, .bindDescriptorSets,
     .drawIndexed skyboxIndexCount 1]
  else if part.2.isSome then
    if st.clearColorData.pipeline ≠ 0 then
      [.bindPipeline st.clearColorData.pipeline, .bindVertexBuffer,
       .draw 4 1]
    else []
  else []

/-- Per-mesh-object draw block (RendererVulkan.cpp:1523-1538). -/
def meshDrawCmds (gameObjects : List GameObject) (meshIndices : List Nat) :
    List Cmd :=
  meshIndices.flatMap fun i =>
    [.bindVertexBuffer, .bindIndexBuffer, .bindDescriptorSets,
     .drawIndexed ((gameObjects.getD i cubeObject).meshIndexCount) 1]

/-- `RendererVulkan::recordCommandBuffer` (RendererVulkan.cpp:1442-1543):
begin the render pass on the acquired image's framebuffer, set dynamic
viewport and scissor to the current extent, draw the background, bind the
main pipeline and draw every mesh drawable in table order. -/
def recordCommandBuffer (st : RendererState) (imageIndex : Nat) : List Cmd :=
  let part := partitionDrawables st.gameObjects
  [.beginRenderPass (st.ctx.swapChainFramebuffers.getD imageIndex 0)
      st.ctx.swapChainExtent,
   .setViewport st.ctx.swapChainExtent,
   .setScissor st.ctx.swapChainExtent] ++
  backgroundCmds st ++
  [.bindPipeline st.graphicsPipeline] ++
  meshDrawCmds st.gameObjects part.1 ++
  [.endRenderPass]

/-! ### Frame scheduling (`RendererVulkan::render`,
RendererVulkan.cpp:1557-1644) -/

/-- The `VkResult` values `render` distinguishes. -/
inductive VkResult where
  | success
  | suboptimalKHR
  | errorOutOfDateKHR
  | errorOther
deriving DecidableEq, Repr

/-- What the platform answers during one `render` call. -/
structure RenderEnv where
  acquireResult : VkResult
  imageIndex : Nat
  presentResult : VkResult
  surface : SurfaceEnv
  assets : AssetEnv
  time : ℚ
deriving DecidableEq, Repr

/-- The externally observable steps of one `render` call, in order. -/
inductive FrameAction where
  | waitFence (slot : Nat)
  | acquireNextImage (slot : Nat)
  | rebuildSwapchain
  | updateUniforms (slot : Nat)
  | resetFence (slot : Nat)
  | resetCommandBuffer (slot : Nat)
  | recordCommands (slot : Nat) (imageIndex : Nat)
  | submit (slot : Nat)
  | present (imageIndex : Nat)
  | advanceFrame
deriving DecidableEq, Repr

/-- `RendererVulkan::render` (RendererVulkan.cpp:1557-1644): wait on the
current slot's fence; acquire; on OutOfDate/Suboptimal rebuild and return
(before the fence reset, the uniform update, recording, submit, present
and the frame advance); on another acquire error return; otherwise update
uniforms, reset fence and command buffer, record, submit, present,
rebuild after present when it reports OutOfDate/Suboptimal, and advance
`currentFrame` modulo `MAX_FRAMES_IN_FLIGHT`. -/
def render (env : RenderEnv) (w : World) : World × List FrameAction :=
  let cf := w.st.currentFrame
  let pre : List FrameAction := [.waitFence cf, .acquireNextImage cf]
  if env.acquireResult = .errorOutOfDateKHR ∨
     env.acquireResult = .suboptimalKHR then
    (recreateSwapChain env.surface env.assets w, pre ++ [.rebuildSwapchain])
  else if env.acquireResult ≠ .success then
    (w, pre)
  else
    let u := updateUniformBuffer env.time w.st cf
    let w1 : World := { w with st.gameObjects := u.gameObjects }
    let acts1 := pre ++
      [.updateUniforms cf, .resetFence cf, .resetCommandBuffer cf,
       .recordCommands cf env.imageIndex, .submit cf,
       .present env.imageIndex]
    let step2 : World × List FrameAction :=
      if env.presentResult = .errorOutOfDateKHR ∨
         env.presentResult = .suboptimalKHR then
        (recreateSwapChain env.surface env.assets w1,
         acts1 ++ [.rebuildSwapchain])
      else (w1, acts1)
    ({ step2.1 with st.currentFrame := (cf + 1) % MAX_FRAMES_IN_FLIGHT },
     step2.2 ++ [.advanceFrame])

/-! ### Concrete scenarios -/

/-- A portrait surface with one graphics+present queue family,
`minImageCount = 2` (so the renderer asks for 3 images) and 3 swapchain
images delivered. -/
def exSurfaceInit : SurfaceEnv :=
  { caps := { currentExtent := ⟨1080, 1920⟩,
              currentTransform := TRANSFORM_IDENTITY_BIT, minImageCount := 2 },
    windowWidth := 1080, windowHeight := 1920,
    queueFamilies := [⟨true, true⟩],
    createSwapchainSucceeds := true, imageCount := 3 }

/-- The same surface after a 90-degree rotation. -/
def exSurfaceRot : SurfaceEnv :=
  { caps := { currentExtent := ⟨1080, 1920⟩,
              currentTransform := TRANSFORM_ROTATE_90_BIT, minImageCount := 2 },
    windowWidth := 1080, windowHeight := 1920,
    queueFamilies := [⟨true, true⟩],
    createSwapchainSucceeds := true, imageCount := 3 }

/-- A minimized surface: capabilities and window both report `(0, 0)`. -/
def exSurfaceZero : SurfaceEnv :=
  { caps := { currentExtent := ⟨0, 0⟩,
              currentTransform := TRANSFORM_IDENTITY_BIT, minImageCount := 2 },
    windowWidth := 0, windowHeight := 0,
    queueFamilies := [⟨true, true⟩],
    createSwapchainSucceeds := true, imageCount := 3 }

/-- All asset loads succeed. -/
def exAssetsAll : AssetEnv :=
  { mainShadersOk := true, clearShadersOk := true, skyboxShadersOk := true,
    cubemapLoads := true }

/-- The skybox cubemap files are missing; everything else loads. -/
def exAssetsNoCubemap : AssetEnv :=
  { mainShadersOk := true, clearShadersOk := true, skyboxShadersOk := true,
    cubemapLoads := false }

/-- The world after `init` on the portrait surface with all assets. -/
def exWorld0 : World := initRenderer exSurfaceInit exAssetsAll

/-- The world after `init` and one successful rebuild. -/
def exWorld1 : World := recreateSwapChain exSurfaceRot exAssetsAll exWorld0

/-! ### Helper lemmas about the world operations -/

theorem allocMany_fst_length (kind : ResKind) :
    ∀ (n : Nat) (w : World), ((w.allocMany kind n).1).length = n := by
  intro n
  induction n with
  | zero => intro w; rfl
  | succ m ih => intro w; simp [World.allocMany, ih]

@[simp] theorem allocMany_snd_st (kind : ResKind) :
    ∀ (n : Nat) (w : World), ((w.allocMany kind n).2).st = w.st := by
  intro n
  induction n with
  | zero => intro w; rfl
  | succ m ih => intro w; simp [World.allocMany, World.alloc, ih]

@[simp] theorem allocMany_snd_pipelines (kind : ResKind) :
    ∀ (n : Nat) (w : World), ((w.allocMany kind n).2).pipelines = w.pipelines := by
  intro n
  induction n with
  | zero => intro w; rfl
  | succ m ih => intro w; simp [World.allocMany, World.alloc, ih]

@[simp] theorem allocMany_snd_swapchainCreateInfos (kind : ResKind) :
    ∀ (n : Nat) (w : World),
      ((w.allocMany kind n).2).swapchainCreateInfos = w.swapchainCreateInfos := by
  intro n
  induction n with
  | zero => intro w; rfl
  | succ m ih => intro w; simp [World.allocMany, World.alloc, ih]

theorem allocMany_snd_nextHandle (kind : ResKind) :
    ∀ (n : Nat) (w : World),
      ((w.allocMany kind n).2).nextHandle = w.nextHandle + n := by
  intro n
  induction n with
  | zero => intro w; rfl
  | succ m ih =>
    intro w
    show (((w.alloc kind).2).allocMany kind m).2.nextHandle = w.nextHandle + (m + 1)
    rw [ih]
    simp [World.alloc]
    ring

theorem allocMany_trace_append (kind : ResKind) :
    ∀ (n : Nat) (w : World),
      ∃ l, ((w.allocMany kind n).2).trace = w.trace ++ l := by
  intro n
  induction n with
  | zero => intro w; exact ⟨[], by simp [World.allocMany]⟩
  | succ m ih =>
    intro w
    obtain ⟨l, hl⟩ := ih ((w.alloc kind).2)
    simp only [World.alloc] at hl
    refine ⟨[Event.create kind w.nextHandle] ++ l, ?_⟩
    simp [World.allocMany, World.alloc, hl]

theorem allocMany_fst_pos (kind : ResKind) :
    ∀ (n : Nat) (w : World), w.nextHandle ≠ 0 →
      ∀ h ∈ (w.allocMany kind n).1, h ≠ 0 := by
  intro n
  induction n with
  | zero => intro w _ h hh; simp [World.allocMany] at hh
  | succ m ih =>
    intro w hw h hh
    simp only [World.allocMany, World.alloc] at hh
    rcases List.mem_cons.mp hh with h1 | h2
    · exact h1 ▸ hw
    · exact ih _ (by simp [World.alloc]) h h2

@[simp] theorem createGraphicsPipelineInit_ctx (a : AssetEnv) (w : World) :
    (createGraphicsPipelineInit a w).st.ctx = w.st.ctx := by
  unfold createGraphicsPipelineInit
  split <;> simp [World.alloc]

@[simp] theorem createGraphicsPipelineInit_gameObjects (a : AssetEnv) (w : World) :
    (createGraphicsPipelineInit a w).st.gameObjects = w.st.gameObjects := by
  unfold createGraphicsPipelineInit
  split <;> simp [World.alloc]

@[simp] theorem createGraphicsPipelineInit_currentFrame (a : AssetEnv) (w : World) :
    (createGraphicsPipelineInit a w).st.currentFrame = w.st.currentFrame := by
  unfold createGraphicsPipelineInit
  split <;> simp [World.alloc]

@[simp] theorem createGraphicsPipelineInit_skyboxData (a : AssetEnv) (w : World) :
    (createGraphicsPipelineInit a w).st.skyboxData = w.st.skyboxData := by
  unfold createGraphicsPipelineInit
  split <;> simp [World.alloc]

@[simp] theorem createGraphicsPipelineInit_clearColorData (a : AssetEnv) (w : World) :
    (createGraphicsPipelineInit a w).st.clearColorData = w.st.clearColorData := by
  unfold createGraphicsPipelineInit
  split <;> simp [World.alloc]

@[simp] theorem createGraphicsPipelineInit_swapchainCreateInfos (a : AssetEnv)
    (w : World) :
    (createGraphicsPipelineInit a w).swapchainCreateInfos =
      w.swapchainCreateInfos := by
  unfold createGraphicsPipelineInit
  split <;> simp [World.alloc]

@[simp] theorem createClearColorPipeline_ctx (a : AssetEnv) (w : World) :
    (createClearColorPipeline a w).st.ctx = w.st.ctx := by
  unfold createClearColorPipeline
  split <;> simp [World.alloc]

@[simp] theorem createClearColorPipeline_graphicsPipeline (a : AssetEnv) (w : World) :
    (createClearColorPipeline a w).st.graphicsPipeline =
      w.st.graphicsPipeline := by
  unfold createClearColorPipeline
  split <;> simp [World.alloc]

@[simp] theorem createClearColorPipeline_pipelineLayout (a : AssetEnv) (w : World) :
    (createClearColorPipeline a w).st.pipelineLayout = w.st.pipelineLayout := by
  unfold createClearColorPipeline
  split <;> simp [World.alloc]

@[simp] theorem createClearColorPipeline_skyboxData (a : AssetEnv) (w : World) :
    (createClearColorPipeline a w).st.skyboxData = w.st.skyboxData := by
  unfold createClearColorPipeline
  split <;> simp [World.alloc]

@[simp] theorem createClearColorPipeline_gameObjects (a : AssetEnv) (w : World) :
    (createClearColorPipeline a w).st.gameObjects = w.st.gameObjects := by
  unfold createClearColorPipeline
  split <;> simp [World.alloc]

@[simp] theorem createClearColorPipeline_currentFrame (a : AssetEnv) (w : World) :
    (createClearColorPipeline a w).st.currentFrame = w.st.currentFrame := by
  unfold createClearColorPipeline
  split <;> simp [World.alloc]

@[simp] theorem createClearColorPipeline_swapchainCreateInfos (a : AssetEnv)
    (w : World) :
    (createClearColorPipeline a w).swapchainCreateInfos =
      w.swapchainCreateInfos := by
  unfold createClearColorPipeline
  split <;> simp [World.alloc]

theorem createClearColorPipeline_trace_append (a : AssetEnv) (w : World) :
    ∃ l, (createClearColorPipeline a w).trace = w.trace ++ l := by
  unfold createClearColorPipeline
  split
  · exact ⟨[], by simp⟩
  · exact ⟨[Event.create .pipelineLayout w.nextHandle,
            Event.create .pipeline (w.nextHandle + 1)], by simp [World.alloc]⟩

theorem createClearColorPipeline_pipelines_mem (a : AssetEnv) (w : World) :
    ∀ r ∈ (createClearColorPipeline a w).pipelines,
      r ∈ w.pipelines ∨ (r.tag = .clearColor ∧ r.dynamicStates = []) := by
  unfold createClearColorPipeline
  split
  · exact fun r hr => Or.inl hr
  · intro r hr
    simp only [World.alloc] at hr
    rcases List.mem_append.mp hr with h1 | h2
    · exact Or.inl h1
    · simp at h2
      exact Or.inr (by simp [h2])

@[simp] theorem createSkyboxPipeline_ctx (a : AssetEnv) (w : World) :
    (createSkyboxPipeline a w).st.ctx = w.st.ctx := by
  cases h : w.st.gameObjects.find? (·.hasSkyboxRenderer) <;>
    simp only [createSkyboxPipeline, h, World.alloc] <;>
    (repeat' split) <;> simp

@[simp] theorem createSkyboxPipeline_graphicsPipeline (a : AssetEnv) (w : World) :
    (createSkyboxPipeline a w).st.graphicsPipeline = w.st.graphicsPipeline := by
  cases h : w.st.gameObjects.find? (·.hasSkyboxRenderer) <;>
    simp only [createSkyboxPipeline, h, World.alloc] <;>
    (repeat' split) <;> simp

@[simp] theorem createSkyboxPipeline_pipelineLayout (a : AssetEnv) (w : World) :
    (createSkyboxPipeline a w).st.pipelineLayout = w.st.pipelineLayout := by
  cases h : w.st.gameObjects.find? (·.hasSkyboxRenderer) <;>
    simp only [createSkyboxPipeline, h, World.alloc] <;>
    (repeat' split) <;> simp

@[simp] theorem createSkyboxPipeline_clearColorData (a : AssetEnv) (w : World) :
    (createSkyboxPipeline a w).st.clearColorData = w.st.clearColorData := by
  cases h : w.st.gameObjects.find? (·.hasSkyboxRenderer) <;>
    simp only [createSkyboxPipeline, h, World.alloc] <;>
    (repeat' split) <;> simp

@[simp] theorem createSkyboxPipeline_gameObjects (a : AssetEnv) (w : World) :
    (createSkyboxPipeline a w).st.gameObjects = w.st.gameObjects := by
  cases h : w.st.gameObjects.find? (·.hasSkyboxRenderer) <;>
    simp only [createSkyboxPipeline, h, World.alloc] <;>
    (repeat' split) <;> simp

@[simp] theorem createSkyboxPipeline_currentFrame (a : AssetEnv) (w : World) :
    (createSkyboxPipeline a w).st.currentFrame = w.st.currentFrame := by
  cases h : w.st.gameObjects.find? (·.hasSkyboxRenderer) <;>
    simp only [createSkyboxPipeline, h, World.alloc] <;>
    (repeat' split) <;> simp

@[simp] theorem createSkyboxPipeline_swapchainCreateInfos (a : AssetEnv) (w : World) :
    (createSkyboxPipeline a w).swapchainCreateInfos = w.swapchainCreateInfos := by
  cases h : w.st.gameObjects.find? (·.hasSkyboxRenderer) <;>
    simp only [createSkyboxPipeline, h, World.alloc] <;>
    (repeat' split) <;> simp

theorem createSkyboxPipeline_trace_append (a : AssetEnv) (w : World) :
    ∃ l, (createSkyboxPipeline a w).trace = w.trace ++ l := by
  unfold createSkyboxPipeline
  cases h : w.st.gameObjects.find? (·.hasSkyboxRenderer)
  · exact ⟨[], by simp [h]⟩
  · simp only [h]
    split
    · exact ⟨[], by simp⟩
    · split
      · exact ⟨[], by simp⟩
      · exact ⟨[Event.create .pipelineLayout w.nextHandle,
                Event.create .pipeline (w.nextHandle + 1)],
               by simp [World.alloc]⟩

theorem createSkyboxPipeline_pipelines_mem (a : AssetEnv) (w : World) :
    ∀ r ∈ (createSkyboxPipeline a w).pipelines,
      r ∈ w.pipelines ∨ (r.tag = .skybox ∧ r.dynamicStates = []) := by
  unfold createSkyboxPipeline
  cases h : w.st.gameObjects.find? (·.hasSkyboxRenderer)
  · simp only [h]; exact fun r hr => Or.inl hr
  · simp only [h]
    split
    · exact fun r hr => Or.inl hr
    · split
      · exact fun r hr => Or.inl hr
      · intro r hr
        simp only [World.alloc] at hr
        rcases List.mem_append.mp hr with h1 | h2
        · exact Or.inl h1
        · simp at h2
          exact Or.inr (by simp [h2])


/-! ### Queue-selection lemmas (C6) -/

theorem selectGo_init_eq_recreate :
    ∀ (l : List QueueFamily) (i : Nat) (g p : Int),
      selectQueueFamiliesInitGo l i g p = selectQueueFamiliesRecreateGo l i g p := by
  intro l
  induction l with
  | nil => intro i g p; rfl
  | cons f rest ih =>
    intro i g p
    simp only [selectQueueFamiliesInitGo, selectQueueFamiliesRecreateGo]
    (repeat' split) <;> first | rfl | exact ih _ _ _

theorem selectGo_init_eq_lastWins :
    ∀ (l : List QueueFamily) (i : Nat) (g p : Int),
      selectQueueFamiliesInitGo l i g p = lastWinsScan (List.enumFrom i l) (g, p) := by
  intro l
  induction l with
  | nil => intro i g p; rfl
  | cons f rest ih =>
    intro i g p
    simp only [selectQueueFamiliesInitGo, List.enumFrom, lastWinsScan]
    (repeat' split) <;> first | rfl | exact ih _ _ _

/-! ### The zero-extent early return of recreateSwapChain -/

theorem recreate_zero_extent (s : SurfaceEnv) (a : AssetEnv) (w : World)
    (h : (correctedExtent s).width = 0 ∨ (correctedExtent s).height = 0) :
    recreateSwapChain s a w =
      { w with st.ctx.swapChainExtent := correctedExtent s,
               st.ctx.currentTransform := s.caps.currentTransform } := by
  simp only [recreateSwapChain]
  rw [if_pos h]
  rfl

theorem recreate_currentFrame (s : SurfaceEnv) (a : AssetEnv) (w : World) :
    (recreateSwapChain s a w).st.currentFrame = w.st.currentFrame := by
  simp only [recreateSwapChain, recreateGeometry, recreateRecordInfo,
    recreateCreateSwapchain, recreateSwapChainTail]
  (repeat' split) <;> simp [World.alloc, World.destroyRes]

/-! ### Claim theorems -/

/-- C5: for a surface whose pre-rotation transform is ROTATE_90 (and
likewise ROTATE_270) with swapchain extent (1080, 1920), the aspect ratio
fed to the projection equals 1920/1080 (height over width), not
1080/1920; for non-rotated transforms it equals width over height. -/
theorem C5_aspect_swapped_for_rotated_transforms :
    computeAspect TRANSFORM_ROTATE_90_BIT ⟨1080, 1920⟩ = 1920 / 1080 ∧
    computeAspect TRANSFORM_ROTATE_270_BIT ⟨1080, 1920⟩ = 1920 / 1080 ∧
    computeAspect TRANSFORM_ROTATE_90_BIT ⟨1080, 1920⟩ ≠ 1080 / 1920 ∧
    ∀ (t : Nat) (e : Extent2D),
      t &&& TRANSFORM_ROTATE_90_BIT = 0 →
      t &&& TRANSFORM_ROTATE_270_BIT = 0 →
      computeAspect t e = (e.width : ℚ) / (e.height : ℚ) := by
  refine ⟨?_, ?_, ?_, ?_⟩
  · norm_num [computeAspect, TRANSFORM_ROTATE_90_BIT, TRANSFORM_ROTATE_270_BIT]
  · norm_num [computeAspect, TRANSFORM_ROTATE_90_BIT, TRANSFORM_ROTATE_270_BIT]
  · norm_num [computeAspect, TRANSFORM_ROTATE_90_BIT, TRANSFORM_ROTATE_270_BIT]
  · intro t e h1 h2
    simp [computeAspect, h1, h2]

/-- Witness for C5: the identity transform keeps width over height. -/
theorem C5_witness :
    computeAspect TRANSFORM_IDENTITY_BIT ⟨1080, 1920⟩ = (1080 : ℚ) / 1920 :=
  C5_aspect_swapped_for_rotated_transforms.2.2.2
    TRANSFORM_IDENTITY_BIT ⟨1080, 1920⟩ (by decide) (by decide)

/-- C6 counterexample: with families [graphics-only, graphics+present] the
code selects graphicsFamily = 1, but the first graphics-capable family is
index 0 — the scan overwrites the earlier match before it stops. -/
theorem C6_counterexample :
    selectQueueFamiliesInit [⟨true, false⟩, ⟨true, true⟩] ≠
      specFirstSelect [⟨true, false⟩, ⟨true, true⟩] ∧
    selectQueueFamiliesInit [⟨true, false⟩, ⟨true, true⟩] = (1, 1) ∧
    specFirstSelect [⟨true, false⟩, ⟨true, true⟩] = (0, 1) := by
  refine ⟨?_, by decide, by decide⟩
  decide

/-- C6 amended: init and rebuild run the identical queue-family scan, and
that scan is the last-qualifying-index-wins walk that stops at the first
index at which both a graphics-capable and a present-capable family have
been seen (not a first-match selection). -/
theorem C6_selection_last_wins_and_identical_on_both_paths :
    ∀ queueFamilies : List QueueFamily,
      selectQueueFamiliesInit queueFamilies =
        selectQueueFamiliesRecreate queueFamilies ∧
      selectQueueFamiliesInit queueFamilies = lastWinsSelect queueFamilies := by
  intro qf
  constructor
  · exact selectGo_init_eq_recreate qf 0 (-1) (-1)
  · have h := selectGo_init_eq_lastWins qf 0 (-1) (-1)
    simpa [selectQueueFamiliesInit, lastWinsSelect, List.enum] using h

/-- C10: when `recreateSwapChain` takes the minimized-window early return,
the GPU resources and the trace stay untouched, but `swapChainExtent` and
`currentTransform` have already been overwritten with the new (zero)
extent and new transform before the zero check. -/
theorem C10_zero_extent_overwrites_geometry_only
    (s : SurfaceEnv) (a : AssetEnv) (w : World)
    (h : (correctedExtent s).width = 0 ∨ (correctedExtent s).height = 0) :
    recreateSwapChain s a w =
      { w with st.ctx.swapChainExtent := correctedExtent s,
               st.ctx.currentTransform := s.caps.currentTransform } ∧
    (recreateSwapChain s a w).st.ctx.swapChain = w.st.ctx.swapChain ∧
    (recreateSwapChain s a w).st.ctx.renderPass = w.st.ctx.renderPass ∧
    (recreateSwapChain s a w).st.ctx.swapChainFramebuffers =
      w.st.ctx.swapChainFramebuffers ∧
    (recreateSwapChain s a w).trace = w.trace ∧
    (recreateSwapChain s a w).st.ctx.swapChainExtent = correctedExtent s ∧
    (recreateSwapChain s a w).st.ctx.currentTransform =
      s.caps.currentTransform := by
  have he := recreate_zero_extent s a w h
  refine ⟨he, ?_, ?_, ?_, ?_, ?_, ?_⟩ <;> rw [he]

/-- Witness for C10: the concrete minimized rebuild after init leaves the
old handles and overwrites the geometry with zeros. -/
theorem C10_witness :
    recreateSwapChain exSurfaceZero exAssetsAll exWorld0 =
      { exWorld0 with st.ctx.swapChainExtent := correctedExtent exSurfaceZero,
                      st.ctx.currentTransform :=
                        exSurfaceZero.caps.currentTransform } ∧
    (recreateSwapChain exSurfaceZero exAssetsAll exWorld0).st.ctx.swapChain =
      exWorld0.st.ctx.swapChain ∧
    (recreateSwapChain exSurfaceZero exAssetsAll exWorld0).st.ctx.renderPass =
      exWorld0.st.ctx.renderPass ∧
    (recreateSwapChain exSurfaceZero exAssetsAll
        exWorld0).st.ctx.swapChainFramebuffers =
      exWorld0.st.ctx.swapChainFramebuffers ∧
    (recreateSwapChain exSurfaceZero exAssetsAll exWorld0).trace =
      exWorld0.trace ∧
    (recreateSwapChain exSurfaceZero exAssetsAll
        exWorld0).st.ctx.swapChainExtent = correctedExtent exSurfaceZero ∧
    (recreateSwapChain exSurfaceZero exAssetsAll
        exWorld0).st.ctx.currentTransform =
      exSurfaceZero.caps.currentTransform :=
  C10_zero_extent_overwrites_geometry_only exSurfaceZero exAssetsAll exWorld0
    (by decide)

/-- C1 (code evidence): after init (3 swapchain images) and one successful
rebuild, the old swapchain was destroyed but every other superseded
handle leaked: 2 live render passes, 6 live image views, 6 live
framebuffers, 6 live pipelines and 6 live pipeline layouts remain, where
the claim requires 1 render pass and image-count (3) framebuffers with
balanced create/destroy calls.  `cleanupSwapChain` is never invoked. -/
theorem C1_rebuild_leaks_superseded_handles :
    liveCount .swapchain exWorld1.trace = 1 ∧
    liveCount .renderPass exWorld1.trace = 2 ∧
    liveCount .imageView exWorld1.trace = 6 ∧
    liveCount .framebuffer exWorld1.trace = 6 ∧
    liveCount .pipeline exWorld1.trace = 6 ∧
    liveCount .pipelineLayout exWorld1.trace = 6 ∧
    exWorld1.st.ctx.swapChainImageCount = 3 := by
  decide

@[simp] theorem createSkyboxDescriptorSets_ctx (w : World) :
    (createSkyboxDescriptorSets w).st.ctx = w.st.ctx := by
  unfold createSkyboxDescriptorSets
  cases h : w.st.gameObjects.find? (·.hasSkyboxRenderer) <;> simp [h] <;> split <;> simp

@[simp] theorem createSkyboxDescriptorSets_trace (w : World) :
    (createSkyboxDescriptorSets w).trace = w.trace := by
  unfold createSkyboxDescriptorSets
  cases h : w.st.gameObjects.find? (·.hasSkyboxRenderer) <;> simp [h] <;> split <;> simp

/-- A complete swapchain resource set: non-null swapchain, render pass and
main pipeline, and image-count many views and framebuffers at the given
extent. -/
def resourceSetComplete (w : World) (imageCount : Nat) (extent : Extent2D) : Prop :=
  w.st.ctx.swapChain ≠ 0 ∧
  w.st.ctx.renderPass ≠ 0 ∧
  w.st.graphicsPipeline ≠ 0 ∧
  w.st.ctx.swapChainImageViews.length = imageCount ∧
  w.st.ctx.swapChainFramebuffers.length = imageCount ∧
  w.st.ctx.swapChainExtent = extent

theorem recreate_success_complete (s : SurfaceEnv) (a : AssetEnv) (w : World)
    (hw : w.nextHandle ≠ 0)
    (h1 : (correctedExtent s).width ≠ 0) (h2 : (correctedExtent s).height ≠ 0)
    (hsucc : s.createSwapchainSucceeds = true)
    (hmain : a.mainShadersOk = true) :
    resourceSetComplete (recreateSwapChain s a w) s.imageCount
      (correctedExtent s) := by
  simp only [recreateSwapChain, recreateGeometry, recreateRecordInfo,
    recreateCreateSwapchain, recreateSwapChainTail]
  (repeat' split) <;> try (exfalso; simp_all; done)
  all_goals
    (simp only [resourceSetComplete]
     refine ⟨?_, ?_, ?_, ?_, ?_, ?_⟩ <;>
       simp [World.alloc, World.destroyRes, allocMany_fst_length,
             allocMany_snd_nextHandle])
  all_goals exact hw

theorem initRenderer_swapChain_ne_zero (s : SurfaceEnv) (a : AssetEnv) :
    (initRenderer s a).st.ctx.swapChain ≠ 0 := by
  simp [initRenderer, emptyWorld, emptyRendererState, World.alloc]

/-- C3 counterexample: after a zero-extent rebuild the swapchain-dependent
resources are NOT absent/null — the previous handles are all still there
(nothing was destroyed, `cleanupSwapChain` is never called before the
zero check) — and the initial Build in `init` performs no zero-extent
check at all: with capabilities extent (0, 0) it still creates a
swapchain. -/
theorem C3_counterexample :
    (recreateSwapChain exSurfaceZero exAssetsAll exWorld0).st.ctx.swapChain ≠ 0 ∧
    (recreateSwapChain exSurfaceZero exAssetsAll exWorld0).st.ctx.renderPass ≠ 0 ∧
    (recreateSwapChain exSurfaceZero exAssetsAll
        exWorld0).st.ctx.swapChainFramebuffers ≠ [] ∧
    (recreateSwapChain exSurfaceZero exAssetsAll
        exWorld0).st.graphicsPipeline ≠ 0 ∧
    (initRenderer exSurfaceZero exAssetsAll).st.ctx.swapChain ≠ 0 ∧
    (initRenderer exSurfaceZero exAssetsAll).st.ctx.swapChainExtent = ⟨0, 0⟩ := by
  decide

/-- C3 amended: a zero-extent Rebuild aborts without touching any GPU
resource, leaving the previously built (non-null) resources and the
create/destroy trace unchanged rather than absent/null; the initial Build
in `init` performs no zero-extent check and creates the swapchain
unconditionally; and a subsequent Rebuild with a valid extent and
successful creation installs a complete fresh resource set. -/
theorem C3_zero_extent_abort_and_recovery
    (s sGood : SurfaceEnv) (a : AssetEnv) (w : World)
    (hzero : (correctedExtent s).width = 0 ∨ (correctedExtent s).height = 0)
    (hw : w.nextHandle ≠ 0)
    (hg1 : (correctedExtent sGood).width ≠ 0)
    (hg2 : (correctedExtent sGood).height ≠ 0)
    (hsucc : sGood.createSwapchainSucceeds = true)
    (hmain : a.mainShadersOk = true) :
    ((recreateSwapChain s a w).st.ctx.swapChain = w.st.ctx.swapChain ∧
     (recreateSwapChain s a w).st.ctx.renderPass = w.st.ctx.renderPass ∧
     (recreateSwapChain s a w).st.ctx.swapChainFramebuffers =
       w.st.ctx.swapChainFramebuffers ∧
     (recreateSwapChain s a w).st.graphicsPipeline = w.st.graphicsPipeline ∧
     (recreateSwapChain s a w).trace = w.trace) ∧
    (initRenderer s a).st.ctx.swapChain ≠ 0 ∧
    resourceSetComplete (recreateSwapChain sGood a (recreateSwapChain s a w))
      sGood.imageCount (correctedExtent sGood) := by
  have he := recreate_zero_extent s a w hzero
  refine ⟨⟨?_, ?_, ?_, ?_, ?_⟩, initRenderer_swapChain_ne_zero s a, ?_⟩
  · rw [he]
  · rw [he]
  · rw [he]
  · rw [he]
  · rw [he]
  · exact recreate_success_complete sGood a _ (by rw [he]; exact hw) hg1 hg2
      hsucc hmain

/-- Witness for C3 amended: init on the portrait surface, a minimized
rebuild, then a successful rotated rebuild. -/
theorem C3_witness :
    ((recreateSwapChain exSurfaceZero exAssetsAll exWorld0).st.ctx.swapChain =
       exWorld0.st.ctx.swapChain ∧
     (recreateSwapChain exSurfaceZero exAssetsAll exWorld0).st.ctx.renderPass =
       exWorld0.st.ctx.renderPass ∧
     (recreateSwapChain exSurfaceZero exAssetsAll
         exWorld0).st.ctx.swapChainFramebuffers =
       exWorld0.st.ctx.swapChainFramebuffers ∧
     (recreateSwapChain exSurfaceZero exAssetsAll
         exWorld0).st.graphicsPipeline = exWorld0.st.graphicsPipeline ∧
     (recreateSwapChain exSurfaceZero exAssetsAll exWorld0).trace =
       exWorld0.trace) ∧
    (initRenderer exSurfaceZero exAssetsAll).st.ctx.swapChain ≠ 0 ∧
    resourceSetComplete
      (recreateSwapChain exSurfaceRot exAssetsAll
        (recreateSwapChain exSurfaceZero exAssetsAll exWorld0))
      exSurfaceRot.imageCount (correctedExtent exSurfaceRot) :=
  C3_zero_extent_abort_and_recovery exSurfaceZero exSurfaceRot exAssetsAll
    exWorld0 (by decide) (by decide) (by decide) (by decide) rfl rfl

/-! ### Trace lemmas for the rebuild stages (C7) -/

/-- One world's trace extends another's: events were only appended. -/
def TraceExtends (w w' : World) : Prop := ∃ l, w'.trace = w.trace ++ l

theorem traceExtends_trans {w1 w2 w3 : World}
    (h12 : TraceExtends w1 w2) (h23 : TraceExtends w2 w3) :
    TraceExtends w1 w3 := by
  obtain ⟨l1, h1⟩ := h12
  obtain ⟨l2, h2⟩ := h23
  exact ⟨l1 ++ l2, by rw [h2, h1, List.append_assoc]⟩

/-- The creation events `allocMany` appends. -/
def createEvents (kind : ResKind) (start : Handle) : Nat → List Event
  | 0 => []
  | n + 1 => Event.create kind start :: createEvents kind (start + 1) n

@[simp] theorem allocMany_snd_trace (kind : ResKind) :
    ∀ (n : Nat) (w : World),
      ((w.allocMany kind n).2).trace =
        w.trace ++ createEvents kind w.nextHandle n := by
  intro n
  induction n with
  | zero => intro w; simp [World.allocMany, createEvents]
  | succ m ih =>
    intro w
    show (((w.alloc kind).2).allocMany kind m).2.trace =
      w.trace ++ createEvents kind w.nextHandle (m + 1)
    rw [ih]
    simp [World.alloc, createEvents]

theorem recreateSwapChainTail_te (s : SurfaceEnv) (a : AssetEnv) (w : World) :
    TraceExtends w (recreateSwapChainTail s a w) := by
  unfold recreateSwapChainTail
  split
  · exact ⟨_, by simp [World.alloc]; rfl⟩
  · refine traceExtends_trans (traceExtends_trans ?_
      (createClearColorPipeline_trace_append a _))
      (createSkyboxPipeline_trace_append a _)
    exact ⟨_, by simp [World.alloc]; rfl⟩

@[simp] theorem recreateCreateSwapchain_swapChain (w : World) :
    (recreateCreateSwapchain w).st.ctx.swapChain = w.nextHandle := by
  simp only [recreateCreateSwapchain]
  split <;> simp [World.alloc, World.destroyRes]

@[simp] theorem recreateCreateSwapchain_infos (w : World) :
    (recreateCreateSwapchain w).swapchainCreateInfos =
      w.swapchainCreateInfos := by
  simp only [recreateCreateSwapchain]
  split <;> simp [World.alloc, World.destroyRes]

theorem recreateCreateSwapchain_trace (w : World) :
    (recreateCreateSwapchain w).trace =
      w.trace ++ Event.create .swapchain w.nextHandle ::
        (if w.st.ctx.swapChain ≠ 0 then
          [Event.destroy .swapchain w.st.ctx.swapChain]
         else []) := by
  simp only [recreateCreateSwapchain]
  split <;> simp_all [World.alloc, World.destroyRes]

@[simp] theorem recreateSwapChainTail_swapChain (s : SurfaceEnv) (a : AssetEnv)
    (w : World) :
    (recreateSwapChainTail s a w).st.ctx.swapChain = w.st.ctx.swapChain := by
  unfold recreateSwapChainTail
  split <;> simp [World.alloc]

@[simp] theorem recreateSwapChainTail_infos (s : SurfaceEnv) (a : AssetEnv)
    (w : World) :
    (recreateSwapChainTail s a w).swapchainCreateInfos =
      w.swapchainCreateInfos := by
  unfold recreateSwapChainTail
  split <;> simp [World.alloc]

/-- C7: on every Rebuild with a usable extent, the previous swapchain
handle is passed as `oldSwapchain` in the recorded creation info; on
successful creation the new handle is installed and the first two events
this rebuild appends are the creation of the new swapchain immediately
followed by the destruction of the old one (so the old chain is never
destroyed before creation succeeded); on creation failure nothing is
created or destroyed and the old swapchain handle is kept. -/
theorem C7_old_swapchain_passed_and_destroyed_only_after_success
    (s : SurfaceEnv) (a : AssetEnv) (w : World)
    (h1 : (correctedExtent s).width ≠ 0)
    (h2 : (correctedExtent s).height ≠ 0) :
    (recreateSwapChain s a w).swapchainCreateInfos =
      w.swapchainCreateInfos ++ [swapchainInfoFor s (recreateGeometry s w)] ∧
    (swapchainInfoFor s (recreateGeometry s w)).oldSwapchain =
      w.st.ctx.swapChain ∧
    (s.createSwapchainSucceeds = true →
      (recreateSwapChain s a w).st.ctx.swapChain = w.nextHandle ∧
      (w.st.ctx.swapChain ≠ 0 →
        ∃ rest, (recreateSwapChain s a w).trace =
          w.trace ++ Event.create .swapchain w.nextHandle ::
            Event.destroy .swapchain w.st.ctx.swapChain :: rest)) ∧
    (s.createSwapchainSucceeds = false →
      (recreateSwapChain s a w).trace = w.trace ∧
      (recreateSwapChain s a w).st.ctx.swapChain = w.st.ctx.swapChain) := by
  have hz : ¬((correctedExtent s).width = 0 ∨ (correctedExtent s).height = 0) := by
    rintro (h | h)
    · exact h1 h
    · exact h2 h
  refine ⟨?_, by simp [swapchainInfoFor, recreateGeometry], ?_, ?_⟩
  · simp only [recreateSwapChain]
    rw [if_neg hz]
    split
    · simp [recreateRecordInfo, recreateGeometry]
    · simp [recreateRecordInfo, recreateGeometry]
  · intro hs
    have hcond : ¬((!s.createSwapchainSucceeds) = true) := by simp [hs]
    constructor
    · simp only [recreateSwapChain]
      rw [if_neg hz, if_neg hcond]
      simp [recreateRecordInfo, recreateGeometry]
    · intro ho
      obtain ⟨l, hl⟩ := recreateSwapChainTail_te s a
        (recreateCreateSwapchain (recreateRecordInfo s (recreateGeometry s w)))
      refine ⟨l, ?_⟩
      simp only [recreateSwapChain]
      rw [if_neg hz, if_neg hcond, hl, recreateCreateSwapchain_trace]
      simp [recreateRecordInfo, recreateGeometry, ho]
  · intro hf
    have hcond : (!s.createSwapchainSucceeds) = true := by simp [hf]
    simp only [recreateSwapChain]
    rw [if_neg hz, if_pos hcond]
    constructor
    · simp [recreateRecordInfo, recreateGeometry]
    · simp [recreateRecordInfo, recreateGeometry]

/-- Witness for C7: the concrete rotated rebuild after init. -/
theorem C7_witness :
    (recreateSwapChain exSurfaceRot exAssetsAll exWorld0).swapchainCreateInfos =
      exWorld0.swapchainCreateInfos ++
        [swapchainInfoFor exSurfaceRot (recreateGeometry exSurfaceRot exWorld0)] ∧
    (swapchainInfoFor exSurfaceRot
        (recreateGeometry exSurfaceRot exWorld0)).oldSwapchain =
      exWorld0.st.ctx.swapChain ∧
    (exSurfaceRot.createSwapchainSucceeds = true →
      (recreateSwapChain exSurfaceRot exAssetsAll
          exWorld0).st.ctx.swapChain = exWorld0.nextHandle ∧
      (exWorld0.st.ctx.swapChain ≠ 0 →
        ∃ rest, (recreateSwapChain exSurfaceRot exAssetsAll exWorld0).trace =
          exWorld0.trace ++ Event.create .swapchain exWorld0.nextHandle ::
            Event.destroy .swapchain exWorld0.st.ctx.swapChain :: rest)) ∧
    (exSurfaceRot.createSwapchainSucceeds = false →
      (recreateSwapChain exSurfaceRot exAssetsAll exWorld0).trace =
        exWorld0.trace ∧
      (recreateSwapChain exSurfaceRot exAssetsAll exWorld0).st.ctx.swapChain =
        exWorld0.st.ctx.swapChain) :=
  C7_old_swapchain_passed_and_destroyed_only_after_success exSurfaceRot
    exAssetsAll exWorld0 (by decide) (by decide)

/-! ### C2: stale acquire skips the frame -/

/-- A render call whose acquire reports OutOfDate. -/
def exRenderEnvOutOfDate : RenderEnv :=
  { acquireResult := .errorOutOfDateKHR, imageIndex := 0,
    presentResult := .success, surface := exSurfaceRot,
    assets := exAssetsAll, time := 0 }

/-- C2: when acquire returns OutOfDate or Suboptimal, `render` rebuilds
the swapchain and returns immediately: the only per-frame actions are the
fence wait, the acquire and the rebuild — the slot's fence is not reset,
its command buffer is not reset or re-recorded, nothing is submitted or
presented, and `currentFrame` is not advanced. -/
theorem C2_stale_acquire_rebuilds_and_skips_frame
    (env : RenderEnv) (w : World)
    (h : env.acquireResult = .errorOutOfDateKHR ∨
         env.acquireResult = .suboptimalKHR) :
    render env w =
      (recreateSwapChain env.surface env.assets w,
       [.waitFence w.st.currentFrame, .acquireNextImage w.st.currentFrame,
        .rebuildSwapchain]) ∧
    (render env w).1.st.currentFrame = w.st.currentFrame := by
  have h1 : render env w =
      (recreateSwapChain env.surface env.assets w,
       [.waitFence w.st.currentFrame, .acquireNextImage w.st.currentFrame,
        .rebuildSwapchain]) := by
    simp only [render]
    rw [if_pos h]
    rfl
  refine ⟨h1, ?_⟩
  rw [h1]
  exact recreate_currentFrame env.surface env.assets w

/-- Witness for C2: a concrete OutOfDate acquire on the post-init world. -/
theorem C2_witness :
    render exRenderEnvOutOfDate exWorld0 =
      (recreateSwapChain exRenderEnvOutOfDate.surface
         exRenderEnvOutOfDate.assets exWorld0,
       [.waitFence exWorld0.st.currentFrame,
        .acquireNextImage exWorld0.st.currentFrame, .rebuildSwapchain]) ∧
    (render exRenderEnvOutOfDate exWorld0).1.st.currentFrame =
      exWorld0.st.currentFrame :=
  C2_stale_acquire_rebuilds_and_skips_frame exRenderEnvOutOfDate exWorld0
    (Or.inl rfl)

/-! ### C8: dynamic-state lemmas -/

@[simp] theorem createSkyboxDescriptorSets_pipelines (w : World) :
    (createSkyboxDescriptorSets w).pipelines = w.pipelines := by
  unfold createSkyboxDescriptorSets
  cases h : w.st.gameObjects.find? (·.hasSkyboxRenderer) <;> simp [h] <;> split <;> simp

theorem createGraphicsPipelineInit_pipelines_mem (a : AssetEnv) (w : World) :
    ∀ r ∈ (createGraphicsPipelineInit a w).pipelines,
      r ∈ w.pipelines ∨ (r.tag = .mainInit ∧ r.dynamicStates = []) := by
  unfold createGraphicsPipelineInit
  split
  · exact fun r hr => Or.inl hr
  · intro r hr
    simp only [World.alloc] at hr
    rcases List.mem_append.mp hr with h1 | h2
    · exact Or.inl h1
    · simp at h2
      exact Or.inr (by simp [h2])

@[simp] theorem recreateCreateSwapchain_pipelines (w : World) :
    (recreateCreateSwapchain w).pipelines = w.pipelines := by
  simp only [recreateCreateSwapchain]
  split <;> simp [World.alloc, World.destroyRes]

theorem recreateSwapChainTail_pipelines_mem (s : SurfaceEnv) (a : AssetEnv)
    (w : World) :
    ∀ r ∈ (recreateSwapChainTail s a w).pipelines,
      r ∈ w.pipelines ∨
      (r.tag = .mainRebuild ∧ r.dynamicStates = [.viewport, .scissor]) ∨
      (r.tag ≠ .mainRebuild ∧ r.dynamicStates = []) := by
  unfold recreateSwapChainTail
  split
  · intro r hr
    simp [World.alloc] at hr
    exact Or.inl hr
  · intro r hr
    rcases createSkyboxPipeline_pipelines_mem a _ r hr with hr | h2
    · rcases createClearColorPipeline_pipelines_mem a _ r hr with hr | h2
      · simp only [World.alloc, allocMany_snd_pipelines] at hr
        rcases List.mem_append.mp hr with h1 | h2
        · exact Or.inl h1
        · simp at h2
          exact Or.inr (Or.inl (by simp [h2]))
      · refine Or.inr (Or.inr ⟨?_, h2.2⟩)
        rw [h2.1]
        simp
    · refine Or.inr (Or.inr ⟨?_, h2.2⟩)
      rw [h2.1]
      simp

/-- C8 counterexample: the three pipelines built on the init path — main
object pipeline, flat-color pipeline, skybox pipeline — all declare NO
dynamic state (fixed viewport/scissor baked at creation), and after a
rebuild only the rebuilt main pipeline declares dynamic
viewport/scissor; the clear-color and skybox pipelines are rebuilt
without it. -/
theorem C8_counterexample :
    exWorld0.pipelines.map (fun r => (r.tag, r.dynamicStates)) =
      [(.mainInit, []), (.clearColor, []), (.skybox, [])] ∧
    exWorld1.pipelines.map (fun r => (r.tag, r.dynamicStates)) =
      [(.mainInit, []), (.clearColor, []), (.skybox, []),
       (.mainRebuild, [.viewport, .scissor]), (.clearColor, []),
       (.skybox, [])] := by
  decide

/-- C8 amended: no pipeline created on the init path declares dynamic
state; on the rebuild path exactly the rebuilt main pipeline declares
dynamic viewport/scissor while every other pipeline record created there
declares none; and every recorded frame issues `vkCmdSetViewport` and
`vkCmdSetScissor` with the current extent (which governs the rendered
viewport only for the dynamic-state pipeline). -/
theorem C8_dynamic_state_only_on_rebuilt_main_pipeline :
    (∀ (s : SurfaceEnv) (a : AssetEnv) (r : PipelineRecord),
      r ∈ (initRenderer s a).pipelines → r.dynamicStates = []) ∧
    (∀ (s : SurfaceEnv) (a : AssetEnv) (w : World) (r : PipelineRecord),
      r ∈ (recreateSwapChain s a w).pipelines →
        r ∈ w.pipelines ∨
        (r.tag = .mainRebuild ∧ r.dynamicStates = [.viewport, .scissor]) ∨
        (r.tag ≠ .mainRebuild ∧ r.dynamicStates = [])) ∧
    (∀ (st : RendererState) (imageIndex : Nat),
      Cmd.setViewport st.ctx.swapChainExtent ∈
        recordCommandBuffer st imageIndex ∧
      Cmd.setScissor st.ctx.swapChainExtent ∈
        recordCommandBuffer st imageIndex) := by
  refine ⟨?_, ?_, ?_⟩
  · intro s a r hr
    simp only [initRenderer, createSkyboxDescriptorSets_pipelines] at hr
    rcases createSkyboxPipeline_pipelines_mem a _ r hr with hr | h2
    · rcases createClearColorPipeline_pipelines_mem a _ r hr with hr | h2
      · rcases createGraphicsPipelineInit_pipelines_mem a _ r hr with hr | h2
        · exfalso
          revert hr
          simp [World.alloc, emptyWorld]
        · exact h2.2
      · exact h2.2
    · exact h2.2
  · intro s a w r hr
    simp only [recreateSwapChain] at hr
    split at hr
    · exact Or.inl (by simpa [recreateGeometry] using hr)
    · split at hr
      · exact Or.inl (by simpa [recreateRecordInfo, recreateGeometry] using hr)
      · rcases recreateSwapChainTail_pipelines_mem s a _ r hr with hr | h2
        · simp only [recreateCreateSwapchain_pipelines] at hr
          exact Or.inl (by simpa [recreateRecordInfo, recreateGeometry] using hr)
        · exact Or.inr h2
  · intro st imageIndex
    constructor <;> simp [recordCommandBuffer]

/-- Witness for C8 amended: the concrete main pipeline record built by
init has no dynamic state, and the concrete post-init record stream sets
the viewport to the current extent. -/
theorem C8_witness :
    ({ tag := .mainInit, handle := 10, dynamicStates := [],
       bakedExtent := ⟨1080, 1920⟩ } : PipelineRecord).dynamicStates = [] ∧
    Cmd.setViewport exWorld0.st.ctx.swapChainExtent ∈
      recordCommandBuffer exWorld0.st 0 :=
  ⟨C8_dynamic_state_only_on_rebuilt_main_pipeline.1 exSurfaceInit exAssetsAll
     _ (by decide),
   (C8_dynamic_state_only_on_rebuilt_main_pipeline.2.2 exWorld0.st 0).1⟩

/-! ### C4: background draw characterization -/

theorem GameObject.not_skybox_of_mesh (go : GameObject)
    (h : go.hasMeshRenderer = true) : go.hasSkyboxRenderer = false := by
  cases hc : go.comp <;>
    simp_all [GameObject.hasMeshRenderer, GameObject.hasSkyboxRenderer]

theorem partitionGo_snd_isSome :
    ∀ (gos : List GameObject) (i : Nat) (acc : List Nat) (sky : Option Nat),
      ((partitionDrawablesGo gos i acc sky).2).isSome =
        (sky.isSome || gos.any (·.hasSkyboxRenderer)) := by
  intro gos
  induction gos with
  | nil => intro i acc sky; simp [partitionDrawablesGo]
  | cons go rest ih =>
    intro i acc sky
    simp only [partitionDrawablesGo]
    by_cases hm : go.hasMeshRenderer
    · rw [if_pos hm, ih]
      simp [GameObject.not_skybox_of_mesh go hm]
    · rw [if_neg hm]
      by_cases hs : go.hasSkyboxRenderer
      · rw [if_pos hs, ih]
        simp [hs]
      · rw [if_neg hs, ih]
        simp [Bool.eq_false_iff.mpr hs]

theorem partition_snd_isSome (gos : List GameObject) :
    ((partitionDrawables gos).2).isSome = gos.any (·.hasSkyboxRenderer) := by
  rw [partitionDrawables, partitionGo_snd_isSome]
  simp

/-- Number of indexed draws (the skybox draw) in the background block. -/
def backgroundDrawIndexedCount (st : RendererState) : Nat :=
  (backgroundCmds st).countP fun c =>
    match c with
    | .drawIndexed _ _ => true
    | _ => false

/-- Number of plain draws (the flat-color quad draw) in the background
block. -/
def backgroundDrawCount (st : RendererState) : Nat :=
  (backgroundCmds st).countP fun c =>
    match c with
    | .draw _ _ => true
    | _ => false

/-- C4 counterexample: when the cubemap fails to load at init, no skybox
drawable is created, and the recorded frame executes NEITHER the skybox
draw NOR the flat-color draw — the background block is empty, refuting
"never neither". -/
theorem C4_counterexample :
    backgroundCmds (initRenderer exSurfaceInit exAssetsNoCubemap).st = [] ∧
    backgroundDrawIndexedCount (initRenderer exSurfaceInit exAssetsNoCubemap).st = 0 ∧
    backgroundDrawCount (initRenderer exSurfaceInit exAssetsNoCubemap).st = 0 ∧
    (initRenderer exSurfaceInit
        exAssetsNoCubemap).st.gameObjects.any (·.hasSkyboxRenderer) = false := by
  decide

/-- C4 amended: at most one background draw executes per frame; the
skybox draw executes iff the skybox pipeline exists and its texture flag
is set; the flat-color draw executes iff the skybox draw does not, a
skybox drawable exists in the scene, and the clear-color pipeline exists.
When the cubemap failed to load (no skybox drawable was created), neither
draw executes. -/
theorem C4_background_draws_mutually_exclusive_not_exhaustive :
    ∀ st : RendererState,
      backgroundDrawIndexedCount st + backgroundDrawCount st ≤ 1 ∧
      (backgroundDrawIndexedCount st = 1 ↔
        st.skyboxData.pipeline ≠ 0 ∧ st.skyboxData.hasTexture = true) ∧
      (backgroundDrawCount st = 1 ↔
        ¬(st.skyboxData.pipeline ≠ 0 ∧ st.skyboxData.hasTexture = true) ∧
        st.gameObjects.any (·.hasSkyboxRenderer) = true ∧
        st.clearColorData.pipeline ≠ 0) := by
  intro st
  unfold backgroundDrawIndexedCount backgroundDrawCount backgroundCmds
  simp only [partition_snd_isSome]
  split_ifs with h1 h2 h3 <;>
    simp_all [List.countP_cons, List.countP_nil]

/-! ### C9: uniform update payload -/

/-- The mesh indices the partition loop produces, positioned from `i`. -/
def meshIndicesFrom (i : Nat) : List GameObject → List Nat
  | [] => []
  | go :: rest =>
    (if go.hasMeshRenderer then [i] else []) ++ meshIndicesFrom (i + 1) rest

theorem partitionGo_fst :
    ∀ (gos : List GameObject) (i : Nat) (acc : List Nat) (sky : Option Nat),
      ((partitionDrawablesGo gos i acc sky).1) = acc ++ meshIndicesFrom i gos := by
  intro gos
  induction gos with
  | nil => intro i acc sky; simp [partitionDrawablesGo, meshIndicesFrom]
  | cons go rest ih =>
    intro i acc sky
    simp only [partitionDrawablesGo, meshIndicesFrom]
    by_cases hm : go.hasMeshRenderer
    · rw [if_pos hm, if_pos hm, ih]
      simp
    · rw [if_neg hm, if_neg hm]
      by_cases hs : go.hasSkyboxRenderer
      · rw [if_pos hs, ih]
        simp
      · rw [if_neg hs, ih]
        simp

theorem partition_fst (gos : List GameObject) :
    (partitionDrawables gos).1 = meshIndicesFrom 0 gos := by
  rw [partitionDrawables, partitionGo_fst]
  simp

theorem getD_append_cons {α : Type} (base : List α) (y d : α) (l : List α) :
    (base ++ y :: l).getD base.length d = y := by
  induction base with
  | nil => rfl
  | cons b bs ih => simpa using ih

theorem set_append_cons {α : Type} (base : List α) (x y : α) (l : List α) :
    (base ++ y :: l).set base.length x = base ++ x :: l := by
  induction base with
  | nil => rfl
  | cons b bs ih => simp [List.set, ih]

theorem updateMeshUbos_bridge (time : ℚ) (view proj : Mat4) (ci : Nat) :
    ∀ (gos base : List GameObject),
      updateMeshUbos time view proj ci (meshIndicesFrom base.length gos)
          (base ++ gos) =
        (base ++ gos.map (fun go =>
           if go.hasMeshRenderer then animateCube time go else go),
         (gos.filter (·.hasMeshRenderer)).map (fun go =>
           { slot := ci,
             model := Mat4.transformMatrix (animateCube time go).position
               (animateCube time go).rotation,
             view := view, proj := proj })) := by
  intro gos
  induction gos with
  | nil => intro base; simp [meshIndicesFrom, updateMeshUbos]
  | cons go rest ih =>
    intro base
    by_cases hm : go.hasMeshRenderer
    · simp only [meshIndicesFrom, if_pos hm, List.singleton_append,
        updateMeshUbos]
      rw [getD_append_cons, set_append_cons]
      rw [show base ++ animateCube time go :: rest =
            (base ++ [animateCube time go]) ++ rest by simp]
      rw [show base.length + 1 = (base ++ [animateCube time go]).length by simp]
      rw [ih]
      simp [hm, List.filter_cons]
    · simp only [meshIndicesFrom, if_neg hm, List.nil_append]
      rw [show base ++ go :: rest = (base ++ [go]) ++ rest by simp]
      rw [show base.length + 1 = (base ++ [go]).length by simp]
      rw [ih]
      simp [hm, List.filter_cons]

/-- C9: every `render` that reaches the uniform-update step writes, for
every mesh-kind drawable and only into slot `currentImage`, exactly the
UBO made of the model matrix from the drawable's current
(animation-updated) transform, the shared view matrix from the fixed
camera at (0, 0, 3) looking at the origin, and the shared projection
recomputed from the current aspect ratio with its Y axis negated; the
skybox slot, when a textured skybox with mapped buffers exists, receives
only view and projection. -/
theorem C9_uniform_update_payload (time : ℚ) (st : RendererState)
    (currentImage : Nat) :
    updateUniformBuffer time st currentImage =
      { gameObjects := st.gameObjects.map (fun go =>
          if go.hasMeshRenderer then animateCube time go else go),
        writes := (st.gameObjects.filter (·.hasMeshRenderer)).map (fun go =>
          { slot := currentImage,
            model := Mat4.transformMatrix (animateCube time go).position
              (animateCube time go).rotation,
            view := viewMatrix,
            proj := projMatrix st.ctx.currentTransform
              st.ctx.swapChainExtent }),
        skyboxWrite :=
          if st.gameObjects.any (·.hasSkyboxRenderer) ∧
             st.skyboxData.hasTexture = true ∧
             st.skyboxData.uniformBuffersMappedSize ≠ 0 then
            some { slot := currentImage, view := viewMatrix,
                   proj := projMatrix st.ctx.currentTransform
                     st.ctx.swapChainExtent }
          else none } := by
  simp only [updateUniformBuffer]
  have hfst := partition_fst st.gameObjects
  have hsnd := partition_snd_isSome st.gameObjects
  rw [hfst]
  have hb := updateMeshUbos_bridge time viewMatrix
    (projMatrix st.ctx.currentTransform st.ctx.swapChainExtent) currentImage
    st.gameObjects []
  simp only [List.nil_append, List.length_nil] at hb
  rw [hb]
  simp [hsnd]

end PrismaVulkan
